import Mathlib

/-!
Shallow embedding of the brain-tumor-segmentation app sources:
  * `src/models/segtran_modified/code/receptivefield/base.py` (class `ReceptiveField`)
  * `src/app/model_controller/segtran_inference.py` (`load_model_state`)
  * `src/app/handlers/file_reader.py` (`FileReader.read_mask`)
  * `src/app/objects/mask_object.py` (`MaskVisual`)
Python floats are modelled as rationals, Python `None`-able attributes as
`Option`, and raised exceptions as `Except` error values.
-/

namespace MaskObj

/-- State of a `MaskVisual` object (`src/app/objects/mask_object.py`): the three
attributes set in `__init__` are its entire per-instance state. -/
structure MaskVisual (M O S : Type) where
  mask : M
  opacity_pk : O
  smoothness_pk : S
deriving DecidableEq, Repr

/-- `MaskVisual.get_visual`: returns the triple of the three attributes. -/
def get_visual {M O S : Type} (mv : MaskVisual M O S) : M × O × S :=
  (mv.mask, mv.opacity_pk, mv.smoothness_pk)

/-- `MaskVisual.set_visual`: overwrites the three attributes with the arguments. -/
def set_visual {M O S : Type} (_mv : MaskVisual M O S) (mask : M) (opac_pk : O)
    (smooth_pk : S) : MaskVisual M O S :=
  { mask := mask, opacity_pk := opac_pk, smoothness_pk := smooth_pk }

end MaskObj

namespace FileRead

/-- Errors surfaced by the modelled `FileReader.read_mask`. -/
inductive FRError where
  | indexError
deriving DecidableEq, Repr

/-- A `NiiLabel(color, opacity, smoothness)` as constructed in `read_mask`;
the color type and the opacity/smoothness picker values are abstract. -/
structure NiiLabel (C : Type) where
  color : C
  opacity : ℚ
  smoothness : ℚ
deriving DecidableEq, Repr

/-- `FileReader.read_mask`, modelled on its label-list manipulation: `n_labels`
is the mask file's maximum scalar value, `colors` the color table
`MASK_COLORS.get(mask_type)` (the config module is not part of `src/`), and
`opac`/`smooth` the constants `MASK_OPACITY`/`MASK_SMOOTHNESS`. The loop
appends one `NiiLabel` per index in `range(n_labels)` (indexing the color
table raises `IndexError` when it is too short), then `del mask.labels[2]`
removes the label at index 2, raising `IndexError` when the list is shorter
than 3. The renderer side effects do not touch the label list. -/
def read_mask {C : Type} (colors : List C) (opac smooth : ℚ) (n_labels : Nat) :
    Except FRError (List (NiiLabel C)) := do
  let labels ← (List.range n_labels).mapM (fun label_idx =>
    match colors[label_idx]? with
    | some c => Except.ok (⟨c, opac, smooth⟩ : NiiLabel C)
    | none => Except.error FRError.indexError)
  if 2 < labels.length then
    Except.ok (labels.eraseIdx 2)
  else
    Except.error FRError.indexError

end FileRead

namespace RF

/-- A `GridPoint(x, y)` on a feature-map grid (`receptivefield.types`). -/
structure GridPoint where
  x : Int
  y : Int
deriving DecidableEq, Repr

/-- A `GridShape` as used by `base.py`: width, height and channels. -/
structure GridShape where
  w : Nat
  h : Nat
  c : Nat
deriving DecidableEq, Repr

/-- An `ImageShape(w, h, c)` as returned by the `input_shape` property. -/
structure ImageShape where
  w : Nat
  h : Nat
  c : Nat
deriving DecidableEq, Repr

/-- A `Size(w, h)` pair; instantiated at `Nat` for grid sizes and at `ℚ` for
estimated receptive-field sizes. -/
structure Size (α : Type) where
  w : α
  h : α
deriving DecidableEq, Repr

/-- A receptive-field rectangle as returned by
`estimate_rf_from_gradients` (`receptivefield.common`, outside `src/`):
`base.py` reads its fields `x`, `y`, `w`, `h`. -/
structure Rect where
  x : ℚ
  y : ℚ
  w : ℚ
  h : ℚ
deriving DecidableEq, Repr

/-- A `ReceptiveFieldDescription(offset, stride, size)` as constructed in
`ReceptiveField.compute`. -/
structure ReceptiveFieldDescription where
  offset : ℚ × ℚ
  stride : ℚ × ℚ
  size : Size ℚ
deriving DecidableEq, Repr

/-- A `FeatureMapDescription(size, rf)` as returned by `feature_maps_desc`. -/
structure FeatureMapDescription where
  size : Size Nat
  rf : ReceptiveFieldDescription
deriving DecidableEq, Repr

/-- The mutable attributes a `ReceptiveField` instance holds after
`__init__` (`base.py`, lines 22-29); the unset ones are `None`. The
`_model_func` / `_gradient_function` callables are threaded as explicit
arguments of `compute` instead of being stored. -/
structure RFState where
  built : Bool
  input_shape : Option GridShape
  output_shapes : Option (List GridShape)
  rf_params : Option (List ReceptiveFieldDescription)
deriving DecidableEq, Repr

/-- The state right after `ReceptiveField.__init__`. -/
def initState : RFState :=
  { built := false, input_shape := none, output_shapes := none, rf_params := none }

/-- Exceptions raised by the modelled methods: `notComputed` is the guard's
`Exception("Receptive field not computed. Run compute function.")`;
`noneType` is the `TypeError` from subscripting / iterating a `None`
attribute; `indexError` an out-of-range list index. -/
inductive RFError where
  | notComputed
  | noneType
  | indexError
deriving DecidableEq, Repr

/-- `ReceptiveField._check` (`base.py`, lines 144-146): raises when `_built`
is false. -/
def check (st : RFState) : Except RFError Unit :=
  if st.built then Except.ok () else Except.error RFError.notComputed

/-- `feature_maps_desc` property (`base.py`, lines 31-38): after the guard,
zips `_output_shapes` with `_rf_params` into `FeatureMapDescription`s. -/
def feature_maps_desc (st : RFState) : Except RFError (List FeatureMapDescription) := do
  _ ← check st
  match st.output_shapes, st.rf_params with
  | some os, some ps =>
      Except.ok ((os.zip ps).map fun sp => ⟨⟨sp.1.w, sp.1.h⟩, sp.2⟩)
  | _, _ => Except.error RFError.noneType

/-- `input_shape` property (`base.py`, lines 40-46). -/
def input_shape (st : RFState) : Except RFError ImageShape := do
  _ ← check st
  match st.input_shape with
  | some s => Except.ok ⟨s.w, s.h, s.c⟩
  | none => Except.error RFError.noneType

/-- `output_shapes` property (`base.py`, lines 48-52). -/
def output_shapes (st : RFState) : Except RFError (List (Size Nat)) := do
  _ ← check st
  match st.output_shapes with
  | some os => Except.ok (os.map fun s => ⟨s.w, s.h⟩)
  | none => Except.error RFError.noneType

/-- `num_feature_maps` property (`base.py`, lines 54-58). -/
def num_feature_maps (st : RFState) : Except RFError Nat := do
  _ ← check st
  match st.output_shapes with
  | some os => Except.ok os.length
  | none => Except.error RFError.noneType

/-- `_build_gradient_func` (`base.py`, lines 60-75): stores the shapes the
API-specific `_prepare_gradient_func` returned and marks the instance built.
The returned gradient callable is threaded separately. -/
def build_gradient_func (st : RFState) (ish : GridShape) (oshapes : List GridShape) :
    RFState :=
  { st with built := true, input_shape := some ish, output_shapes := some oshapes }

/-- The grid-center probe point computed per feature map inside
`_get_gradient_activation_at_map_center` (`base.py`, lines 133-141):
`cx = w // 2 - 1 if w % 2 == 0 else w // 2` (likewise `cy`), then the
center offset is added. -/
def centerPoint (output_shape : GridShape) (center_offset : GridPoint) : GridPoint :=
  let w := output_shape.w
  let h := output_shape.h
  let cx : Int := if w % 2 == 0 then (w : Int) / 2 - 1 else (w : Int) / 2
  let cy : Int := if h % 2 == 0 then (h : Int) / 2 - 1 else (h : Int) / 2
  ⟨cx + center_offset.x, cy + center_offset.y⟩

/-- The list of probe points `_get_gradient_activation_at_map_center` builds
over `range(num_feature_maps)` before calling
`_get_gradient_from_grid_points` (`base.py`, lines 119-142). -/
def gradActivationCenterPoints (oshapes : List GridShape) (offsets : List GridPoint) :
    List GridPoint :=
  List.zipWith centerPoint oshapes offsets

/-- One recorded call to the abstract `_get_gradient_from_grid_points`: the
probe points (one per feature map) and the impulse intensity. -/
structure ProbeCall where
  points : List GridPoint
  intensity : ℚ
deriving DecidableEq, Repr

/-- The closed-form arithmetic of `compute`'s result loop (`base.py`,
lines 182-205), zipping the three per-feature-map probe estimates
`rfs_at_point00`, `rfs_at00`, `rfs_at11`. -/
def rfParamsFromRects (rfsAtPoint00 rfsAt00 rfsAt11 : List Rect) :
    List ReceptiveFieldDescription :=
  (rfsAtPoint00.zip (rfsAt00.zip rfsAt11)).map fun t =>
    { offset := (t.1.w - t.2.1.w / 2, t.1.h - t.2.1.h / 2)
      stride := (t.2.2.x - t.2.1.x, t.2.2.y - t.2.1.y)
      size := ⟨t.2.1.w, t.2.1.h⟩ }

/-- `ReceptiveField.compute` (`base.py`, lines 148-207). `grad_fn` stands for
the API-specific `_get_gradient_from_grid_points` (its gradient-map type `G`
is abstract) and `estimate` for `estimate_rf_from_gradients`
(`receptivefield.common`, outside `src/`). Besides the final state and the
returned `feature_maps_desc`, the model records the trace of `grad_fn`
calls: the two center probes go through
`_get_gradient_activation_at_map_center` with the default intensity `1`, the
grid-start probe calls `grad_fn` directly with the default intensity `1.0`. -/
def compute {G : Type} (st : RFState) (ish : GridShape) (oshapes : List GridShape)
    (grad_fn : List GridPoint → ℚ → List G) (estimate : List G → List Rect) :
    RFState × List ProbeCall × Except RFError (List FeatureMapDescription) :=
  let st1 := build_gradient_func st ish oshapes
  let n := oshapes.length
  let pts00 := gradActivationCenterPoints oshapes (List.replicate n ⟨0, 0⟩)
  let rfsAt00 := estimate (grad_fn pts00 1)
  let pts11 := gradActivationCenterPoints oshapes (List.replicate n ⟨1, 1⟩)
  let rfsAt11 := estimate (grad_fn pts11 1)
  let ptsPoint00 : List GridPoint := List.replicate n ⟨0, 0⟩
  let rfsAtPoint00 := estimate (grad_fn ptsPoint00 1)
  let st2 := { st1 with rf_params := some (rfParamsFromRects rfsAtPoint00 rfsAt00 rfsAt11) }
  (st2, [⟨pts00, 1⟩, ⟨pts11, 1⟩, ⟨ptsPoint00, 1⟩], feature_maps_desc st2)

/-- `plot_rf_grid` (`base.py`, lines 274-305): without any `_check`, it reads
`self._output_shapes[fm_id]`, `self._rf_params[fm_id]` and
`self._input_shape` and hands them to the plotting helper; the model returns
the data passed to `plot_receptive_grid`. Subscripting a `None` attribute
raises `TypeError` (`noneType`); `_input_shape` is passed through unread. -/
def plot_rf_grid (st : RFState) (fm_id : Nat) :
    Except RFError (Option GridShape × GridShape × ReceptiveFieldDescription) :=
  match st.output_shapes with
  | none => Except.error RFError.noneType
  | some osh =>
    match osh[fm_id]? with
    | none => Except.error RFError.indexError
    | some o =>
      match st.rf_params with
      | none => Except.error RFError.noneType
      | some ps =>
        match ps[fm_id]? with
        | none => Except.error RFError.indexError
        | some p => Except.ok (st.input_shape, o, p)

/-- States of a `ReceptiveField` instance reachable through the public
interface: freshly constructed, or after a run of `compute` (the accessors
and plotting methods do not assign attributes). -/
inductive Reachable : RFState → Prop
  | init : Reachable initState
  | compute {G : Type} (st : RFState) (ish : GridShape) (oshapes : List GridShape)
      (grad_fn : List GridPoint → ℚ → List G) (estimate : List G → List Rect) :
      Reachable st → Reachable (compute st ish oshapes grad_fn estimate).1

end RF

namespace Inference

/-- Python values occurring in the argument namespaces and checkpoints of
`segtran_inference.py`: strings, integers and booleans. -/
inductive Val where
  | str : String → Val
  | int : Int → Val
  | bool : Bool → Val
deriving DecidableEq, Repr

/-- A Python dict / `argparse.Namespace.__dict__`, as an insertion-ordered
association list. -/
abbrev Dict := List (String × Val)

/-- Dict lookup: the value of the first matching key. -/
def lookupD (d : Dict) (k : String) : Option Val :=
  (d.find? (fun p => p.1 == k)).map (fun p => p.2)

/-- Dict assignment `d[k] = v`: overwrites the entry when the key is present,
appends it otherwise. -/
def setKey (d : Dict) (k : String) (v : Val) : Dict :=
  if (d.find? (fun p => p.1 == k)).isSome then
    d.map (fun p => if p.1 == k then (k, v) else p)
  else
    d ++ [(k, v)]

/-- `dict.update` / `params.update(model_state_dict)`: assigns every entry of
`src` into `d` in order. -/
def dictUpdate (d src : Dict) : Dict :=
  src.foldl (fun acc p => setKey acc p.1 p.2) d

/-- The `ignored_keys` list of `load_model_state`
(`segtran_inference.py`, lines 36-47), verbatim including the duplicated
`test_ds_name`. -/
def ignored_keys : List String :=
  ["maxiter", "checkpoint_path", "model_input_size", "t_total", "num_workers",
   "lr_warmup_ratio", "lr_warmup_steps", "local_rank", "distributed", "world_size",
   "seed", "debug", "test_ds_name", "test_ds_name", "batch_size", "dropout_prob",
   "orig_patch_size", "input_patch_size", "D_pool_K", "binarize",
   "checkpoint_dir", "iters", "out_origsize", "out_softscores", "verbose_output",
   "gpu", "test_interp", "do_remove_frag", "reload_mask", "saveiter",
   "job_name", "ds_names", "train_ds_names", "dice_warmup_steps", "opt", "lr", "decay",
   "grad_clip", "localization_prob", "tune_bn_only", "MAX_DICE_W", "deterministic",
   "lr_schedule", "out_fpn_do_dropout", "randscale", "do_affine", "focus_class",
   "bce_weight", "D_scale", "orig_input_size", "input_scale",
   "mean", "std", "mask_thres", "use_pretrained", "only_first_linear_in_squeeze",
   "perturb_posw_range"]

/-- The `old_default_keys` dict (`segtran_inference.py`, lines 50-51). -/
def old_default_keys : Dict :=
  [("out_fpn_upsampleD_scheme", Val.str "interpolate"),
   ("num_recurrences", Val.int 1),
   ("qk_have_bias", Val.bool true)]

/-- The `args2` namespace: a copy of `args` into which each old default key
missing from `args` is filled in (`segtran_inference.py`, lines 52-57). -/
def fillOldDefaults (args : Dict) : Dict :=
  old_default_keys.foldl
    (fun args2 kv => if (lookupD args kv.1).isSome then args2 else setKey args2 kv.1 kv.2)
    args

/-- Outcome of `load_model_state`: `exit0 k` is the hard `exit(0)` after the
inconsistency message for key `k`; `keyError k` the `KeyError` from
`args2.__dict__[k]` when `k` is absent; `attrError a` the `AttributeError`
from reading a missing attribute of `args`; `ok p` a normal return of the
network whose parameters are `p`. -/
inductive LoadOutcome where
  | exit0 : String → LoadOutcome
  | keyError : String → LoadOutcome
  | attrError : String → LoadOutcome
  | ok : Dict → LoadOutcome
deriving DecidableEq, Repr

/-- The consistency loop `for k in cp_args: ...`
(`segtran_inference.py`, lines 59-63): scanning the checkpoint args in
order, the first non-ignored key whose `args2` value differs from the
checkpoint value triggers `exit(0)`; a non-ignored key absent from `args2`
raises `KeyError`. `none` means the loop finishes silently. -/
def checkArgsLoop (args2 : Dict) : Dict → Option LoadOutcome
  | [] => none
  | (k, v) :: rest =>
    if k ∈ ignored_keys then checkArgsLoop args2 rest
    else
      match lookupD args2 k with
      | none => some (LoadOutcome.keyError k)
      | some v2 =>
        if v2 ≠ v then some (LoadOutcome.exit0 k) else checkArgsLoop args2 rest

/-- `load_model_state` (`segtran_inference.py`, lines 22-67). The loaded
checkpoint dict is given as: whether it has a `model` entry (`hasModel`),
its `model` weights (`storedModel`), its `args` dict (`storedArgs`, required
by the unconditional `state_dict['args']['device'] = args.device`), and the
whole dict reinterpreted as weights (`rawDict`) for the no-`model` branch.
The network is represented by its parameter dict `netParams`
(`net.state_dict()`); a normal return yields `netParams` updated with the
checkpoint weights (`params.update(...); net.load_state_dict(params)`). -/
def load_model_state (netParams : Dict) (args : Dict) (hasModel : Bool)
    (storedModel : Dict) (storedArgs : Dict) (rawDict : Dict) : LoadOutcome :=
  match lookupD args "device" with
  | none => LoadOutcome.attrError "device"
  | some dev =>
    let storedArgs2 := setKey storedArgs "device" dev
    let model_state_dict := if hasModel then storedModel else rawDict
    let cp_args : Option Dict := if hasModel then some storedArgs2 else none
    match lookupD args "net" with
    | none => LoadOutcome.attrError "net"
    | some netv =>
      let loopResult : Option LoadOutcome :=
        if netv = Val.str "segtran" then
          match cp_args with
          | some cpa => checkArgsLoop (fillOldDefaults args) cpa
          | none => none
        else none
      match loopResult with
      | some bad => bad
      | none => LoadOutcome.ok (dictUpdate netParams model_state_dict)

end Inference

namespace RF

/-- The probe points of `compute`'s first gradient call: the aligned
feature-map centers with zero offset (`base.py`, lines 165-167). -/
def centerPoints00 (oshapes : List GridShape) : List GridPoint :=
  gradActivationCenterPoints oshapes (List.replicate oshapes.length ⟨0, 0⟩)

/-- The probe points of `compute`'s second gradient call: the aligned
feature-map centers offset by `(1, 1)` (`base.py`, lines 171-173). -/
def centerPoints11 (oshapes : List GridShape) : List GridPoint :=
  gradActivationCenterPoints oshapes (List.replicate oshapes.length ⟨1, 1⟩)

/-- The probe points of `compute`'s third gradient call: the grid start
`(0, 0)` for every feature map (`base.py`, lines 177-179). -/
def startPoints (oshapes : List GridShape) : List GridPoint :=
  List.replicate oshapes.length ⟨0, 0⟩

end RF

/-- Whether an `Except` computation returned normally (no exception raised). -/
def ExceptOk {ε α : Type} : Except ε α → Prop :=
  fun e => ∃ a, e = Except.ok a

/-- Evaluating the label loop of `read_mask`: when the color table covers all
`m` label indices, the loop succeeds and builds one label per color among the
first `m`. -/
lemma read_mask_mapM {C : Type} (colors : List C) (opac smooth : ℚ) :
    ∀ m, m ≤ colors.length →
      ((List.range m).mapM (fun label_idx =>
          match colors[label_idx]? with
          | some c => Except.ok (⟨c, opac, smooth⟩ : FileRead.NiiLabel C)
          | none => Except.error FileRead.FRError.indexError)
        : Except FileRead.FRError (List (FileRead.NiiLabel C)))
        = Except.ok ((colors.take m).map (fun c => ⟨c, opac, smooth⟩)) := by
  intro m
  induction m with
  | zero => intro _; rfl
  | succ k ih =>
    intro hm
    have hk : k < colors.length := by omega
    rw [List.range_succ, List.mapM_append, ih (by omega)]
    simp only [List.mapM_cons, List.mapM_nil, List.getElem?_eq_getElem hk]
    exact congrArg Except.ok (by
      rw [List.take_succ, List.map_append, List.getElem?_eq_getElem hk]
      rfl)

/-- Claim C10: `MaskVisual.set_visual` followed by `get_visual` returns exactly
the triple passed to `set_visual`, and `set_visual` modifies no other state:
the resulting object state is fully determined by the arguments (independent
of the previous state, whose only attributes are these three). -/
theorem C10_mask_visual_roundtrip {M O S : Type} (mv mv2 : MaskObj.MaskVisual M O S)
    (mask : M) (opac_pk : O) (smooth_pk : S) :
    MaskObj.get_visual (MaskObj.set_visual mv mask opac_pk smooth_pk)
      = (mask, opac_pk, smooth_pk) ∧
    MaskObj.set_visual mv mask opac_pk smooth_pk
      = MaskObj.set_visual mv2 mask opac_pk smooth_pk :=
  ⟨rfl, rfl⟩

/-- Claim C8: for a mask file of maximum scalar value `m` (with a color table
covering all `m` label indices), `read_mask` builds `m` labels, one per label
index `0..m-1`, then unconditionally deletes the label at index 2; it raises
`IndexError` exactly when `m < 3`, and otherwise returns `m - 1` labels. -/
theorem C8_read_mask_deletes_label2 {C : Type} (colors : List C) (opac smooth : ℚ)
    (m : Nat) (hm : m ≤ colors.length) :
    (m < 3 →
      FileRead.read_mask colors opac smooth m = Except.error FileRead.FRError.indexError) ∧
    (3 ≤ m →
      FileRead.read_mask colors opac smooth m =
        Except.ok (((colors.take m).map
          (fun c => (⟨c, opac, smooth⟩ : FileRead.NiiLabel C))).eraseIdx 2)) ∧
    (∀ l, FileRead.read_mask colors opac smooth m = Except.ok l → l.length = m - 1) := by
  have hmapM := read_mask_mapM colors opac smooth m hm
  have hlen : ((colors.take m).map
      (fun c => (⟨c, opac, smooth⟩ : FileRead.NiiLabel C))).length = m := by
    simp [Nat.min_eq_left hm]
  have hred : FileRead.read_mask colors opac smooth m =
      (if 2 < ((colors.take m).map
            (fun c => (⟨c, opac, smooth⟩ : FileRead.NiiLabel C))).length
       then Except.ok (((colors.take m).map
            (fun c => (⟨c, opac, smooth⟩ : FileRead.NiiLabel C))).eraseIdx 2)
       else Except.error FileRead.FRError.indexError) := by
    unfold FileRead.read_mask
    rw [hmapM]
    rfl
  rw [hred, hlen]
  refine ⟨?_, ?_, ?_⟩
  · intro h3
    rw [if_neg (by omega)]
  · intro h3
    rw [if_pos (by omega)]
  · intro l hl
    by_cases h3 : 2 < m
    · rw [if_pos h3] at hl
      cases hl
      rw [List.length_eraseIdx_of_lt (by rw [hlen]; omega), hlen]
    · rw [if_neg h3] at hl
      cases hl

/-- Witness for C8 at a concrete four-label mask: the label at index 2
(color 30) is gone and three labels remain. -/
theorem C8_read_mask_witness :
    FileRead.read_mask [10, 20, 30, 40] 0 0 4 =
      Except.ok [⟨10, 0, 0⟩, ⟨20, 0, 0⟩, ⟨40, 0, 0⟩] := by
  have h := (C8_read_mask_deletes_label2 [10, 20, 30, 40] 0 0 4 (by decide)).2.1 (by decide)
  exact h.trans (by rfl)

/-- Structure of the reachable `ReceptiveField` states: an unbuilt reachable
state is the fresh one, and a built reachable state has all three result
attributes assigned. -/
lemma reachable_structure (st : RF.RFState) (h : RF.Reachable st) :
    (st.built = false → st = RF.initState) ∧
    (st.built = true →
      st.input_shape.isSome ∧ st.output_shapes.isSome ∧ st.rf_params.isSome) := by
  induction h with
  | init =>
    exact ⟨fun _ => rfl, fun hb => by simp [RF.initState] at hb⟩
  | compute st ish oshapes grad_fn estimate _ _ =>
    refine ⟨fun hb => ?_, fun _ => ?_⟩
    · simp [RF.compute, RF.build_gradient_func] at hb
    · simp [RF.compute, RF.build_gradient_func]

/-- Reduction of a successful `Except` step inside the accessors' guard
sequencing. -/
lemma except_bind_ok {ε α β : Type} (a : α) (f : α → Except ε β) :
    (Except.ok a >>= f) = f a := rfl

/-- Indexing the list of descriptions built by `compute`'s result loop: at any
index where all three probe-estimate lists are defined, the entry is the
closed-form combination of the three rectangles at that index. -/
lemma rfParamsFromRects_getElem (as bs cs : List RF.Rect) (i : Nat)
    (ha : i < as.length) (hb : i < bs.length) (hc : i < cs.length) :
    (RF.rfParamsFromRects as bs cs)[i]? = some
      { offset := (as[i].w - bs[i].w / 2, as[i].h - bs[i].h / 2)
        stride := (cs[i].x - bs[i].x, cs[i].y - bs[i].y)
        size := ⟨bs[i].w, bs[i].h⟩ } := by
  unfold RF.rfParamsFromRects
  rw [List.getElem?_map]
  have hzip : (as.zip (bs.zip cs))[i]? = some (as[i], bs[i], cs[i]) :=
    List.getElem?_zip_eq_some.mpr
      ⟨List.getElem?_eq_getElem ha,
       List.getElem?_zip_eq_some.mpr
         ⟨List.getElem?_eq_getElem hb, List.getElem?_eq_getElem hc⟩⟩
  rw [hzip]
  rfl

/-- Claim C3: the center probe coordinate used by
`_get_gradient_activation_at_map_center` for feature map `i` is
`cx = w // 2 - 1` when the grid width `w` is even and `cx = w // 2` when it
is odd (likewise `cy` from the height), with the center offset added on
top of this aligned center. -/
theorem C3_center_alignment (oshapes : List RF.GridShape) (offsets : List RF.GridPoint)
    (i : Nat) (hs : i < oshapes.length) (ho : i < offsets.length) :
    (RF.gradActivationCenterPoints oshapes offsets)[i]? = some
      ⟨(if oshapes[i].w % 2 = 0 then (oshapes[i].w : Int) / 2 - 1
        else (oshapes[i].w : Int) / 2) + offsets[i].x,
       (if oshapes[i].h % 2 = 0 then (oshapes[i].h : Int) / 2 - 1
        else (oshapes[i].h : Int) / 2) + offsets[i].y⟩ := by
  unfold RF.gradActivationCenterPoints
  rw [List.getElem?_zipWith_eq_some]
  refine ⟨oshapes[i], offsets[i],
    List.getElem?_eq_getElem hs, List.getElem?_eq_getElem ho, ?_⟩
  unfold RF.centerPoint
  by_cases hw : oshapes[i].w % 2 = 0 <;> by_cases hh : oshapes[i].h % 2 = 0 <;>
    simp [hw, hh]

/-- Witness for C3 on a two-feature-map instance: the even 4x4 grid centers
at `(1, 1)`, the odd 5x3 grid at `(2, 1)`, and the `(1, 1)` offset of the
second map is added to give `(3, 2)`. -/
theorem C3_center_alignment_witness :
    (RF.gradActivationCenterPoints [⟨4, 4, 1⟩, ⟨5, 3, 1⟩] [⟨0, 0⟩, ⟨1, 1⟩])[1]? =
      some ⟨3, 2⟩ := by
  have h := C3_center_alignment [⟨4, 4, 1⟩, ⟨5, 3, 1⟩] [⟨0, 0⟩, ⟨1, 1⟩] 1
    (by decide) (by decide)
  exact h.trans (by decide)

/-- Claim C9: `plot_rf_grid` is not protected by the not-yet-computed guard:
on any reachable instance on which `compute` has not run (so it is not
built), it fails by subscripting the unset (`None`) `_output_shapes` /
`_rf_params` attributes - a `TypeError`, not the guard's
"Receptive field not computed" exception. -/
theorem C9_plot_rf_grid_unguarded (st : RF.RFState) (h : RF.Reachable st)
    (hb : st.built = false) (fm_id : Nat) :
    RF.plot_rf_grid st fm_id = Except.error RF.RFError.noneType ∧
    RF.plot_rf_grid st fm_id ≠ Except.error RF.RFError.notComputed := by
  have hst := (reachable_structure st h).1 hb
  subst hst
  refine ⟨rfl, ?_⟩
  intro hcontra
  simp [RF.plot_rf_grid, RF.initState] at hcontra

/-- Witness for C9 on a freshly constructed instance at feature map 0. -/
theorem C9_plot_rf_grid_unguarded_witness :
    RF.plot_rf_grid RF.initState 0 = Except.error RF.RFError.noneType ∧
    RF.plot_rf_grid RF.initState 0 ≠ Except.error RF.RFError.notComputed :=
  C9_plot_rf_grid_unguarded RF.initState RF.Reachable.init rfl 0

/-- Counterexample to claim C7 as stated: after a concrete run of `compute`,
the instance retains the estimated geometric tuples in `_rf_params` - the
attribute is not `None`, so persistent state holding them remains on the
object after `compute` returns. -/
theorem C7_counterexample :
    (RF.compute RF.initState ⟨6, 6, 3⟩ [⟨4, 4, 1⟩] (fun _ _ => [(0 : Nat)])
        (fun _ => [⟨0, 0, 2, 2⟩])).1.rf_params ≠ none := by
  simp [RF.compute, RF.build_gradient_func]

/-- Claim C7 (amended): the geometric tuples are not merely transient:
`compute` retains them on the instance in `_rf_params`, and the later
`plot_rf_grid` operation depends on that retained state - it returns the
stored description of the selected feature map, whereas on the same state
with `_rf_params` cleared back to `None` it fails with a `TypeError`. -/
theorem C7_amended_state_retained {G : Type} (st : RF.RFState) (ish : RF.GridShape)
    (oshapes : List RF.GridShape) (grad_fn : List RF.GridPoint → ℚ → List G)
    (estimate : List G → List RF.Rect) (fm_id : Nat)
    (h0 : fm_id < oshapes.length)
    (hps : fm_id < (RF.rfParamsFromRects
        (estimate (grad_fn (RF.startPoints oshapes) 1))
        (estimate (grad_fn (RF.centerPoints00 oshapes) 1))
        (estimate (grad_fn (RF.centerPoints11 oshapes) 1))).length) :
    (RF.compute st ish oshapes grad_fn estimate).1.rf_params = some
      (RF.rfParamsFromRects
        (estimate (grad_fn (RF.startPoints oshapes) 1))
        (estimate (grad_fn (RF.centerPoints00 oshapes) 1))
        (estimate (grad_fn (RF.centerPoints11 oshapes) 1))) ∧
    RF.plot_rf_grid (RF.compute st ish oshapes grad_fn estimate).1 fm_id =
      Except.ok (some ish, oshapes.get ⟨fm_id, h0⟩,
        (RF.rfParamsFromRects
          (estimate (grad_fn (RF.startPoints oshapes) 1))
          (estimate (grad_fn (RF.centerPoints00 oshapes) 1))
          (estimate (grad_fn (RF.centerPoints11 oshapes) 1))).get ⟨fm_id, hps⟩) ∧
    RF.plot_rf_grid
        { (RF.compute st ish oshapes grad_fn estimate).1 with rf_params := none }
        fm_id =
      Except.error RF.RFError.noneType := by
  have hps2 := hps
  simp only [RF.centerPoints00, RF.centerPoints11, RF.startPoints] at hps2
  refine ⟨rfl, ?_, ?_⟩
  · show RF.plot_rf_grid _ fm_id = _
    unfold RF.plot_rf_grid
    simp [RF.compute, RF.build_gradient_func, RF.centerPoints00, RF.centerPoints11,
      RF.startPoints, List.getElem?_eq_getElem h0, List.getElem?_eq_getElem hps2]
  · show RF.plot_rf_grid _ fm_id = _
    unfold RF.plot_rf_grid
    simp [RF.compute, RF.build_gradient_func, List.getElem?_eq_getElem h0]

/-- Witness for C7 (amended) on a concrete single-feature-map run: the
stored description survives `compute` and `plot_rf_grid` reads it back. -/
theorem C7_amended_state_retained_witness :
    (RF.compute RF.initState ⟨8, 8, 3⟩ [⟨4, 4, 1⟩] (fun pts _ => pts)
        (fun pts => pts.map fun p =>
          (⟨(p.x : ℚ), (p.y : ℚ), (p.x : ℚ) + 2, (p.y : ℚ) + 3⟩ : RF.Rect))).1.rf_params ≠
      none ∧
    RF.plot_rf_grid
        (RF.compute RF.initState ⟨8, 8, 3⟩ [⟨4, 4, 1⟩] (fun pts _ => pts)
          (fun pts => pts.map fun p =>
            (⟨(p.x : ℚ), (p.y : ℚ), (p.x : ℚ) + 2, (p.y : ℚ) + 3⟩ : RF.Rect))).1 0 =
      Except.ok (some ⟨8, 8, 3⟩, ⟨4, 4, 1⟩,
        { offset := (1 / 2, 1), stride := (1, 1), size := ⟨3, 4⟩ }) := by
  have h := C7_amended_state_retained RF.initState ⟨8, 8, 3⟩ [⟨4, 4, 1⟩]
    (fun pts _ => pts)
    (fun pts => pts.map fun p =>
      (⟨(p.x : ℚ), (p.y : ℚ), (p.x : ℚ) + 2, (p.y : ℚ) + 3⟩ : RF.Rect))
    0 (by decide) (by decide)
  refine ⟨?_, h.2.1.trans (by
    norm_num [RF.rfParamsFromRects, RF.startPoints, RF.centerPoints00,
      RF.centerPoints11, RF.gradActivationCenterPoints, RF.centerPoint])⟩
  rw [h.1]
  exact Option.some_ne_none _

/-- Claim C5: the result accessors raise exactly when the receptive field has
not been computed: on an unbuilt reachable state all four raise the guard's
"not computed" exception, on a built reachable state none of them raises,
and `compute` always leaves the instance built (so after a successful
`compute` no accessor raises). -/
theorem C5_accessors_guarded (st : RF.RFState) (h : RF.Reachable st) :
    (st.built = false →
      RF.feature_maps_desc st = Except.error RF.RFError.notComputed ∧
      RF.input_shape st = Except.error RF.RFError.notComputed ∧
      RF.output_shapes st = Except.error RF.RFError.notComputed ∧
      RF.num_feature_maps st = Except.error RF.RFError.notComputed) ∧
    (st.built = true →
      ExceptOk (RF.feature_maps_desc st) ∧ ExceptOk (RF.input_shape st) ∧
      ExceptOk (RF.output_shapes st) ∧ ExceptOk (RF.num_feature_maps st)) ∧
    (∀ (G : Type) (ish : RF.GridShape) (oshapes : List RF.GridShape)
        (grad_fn : List RF.GridPoint → ℚ → List G) (estimate : List G → List RF.Rect),
      (RF.compute st ish oshapes grad_fn estimate).1.built = true) := by
  refine ⟨fun hb => ?_, fun hb => ?_, fun G ish oshapes grad_fn estimate => ?_⟩
  · have hst := (reachable_structure st h).1 hb
    subst hst
    exact ⟨rfl, rfl, rfl, rfl⟩
  · obtain ⟨hish, hosh, hps⟩ := (reachable_structure st h).2 hb
    obtain ⟨ish, hish⟩ := Option.isSome_iff_exists.mp hish
    obtain ⟨osh, hosh⟩ := Option.isSome_iff_exists.mp hosh
    obtain ⟨ps, hps⟩ := Option.isSome_iff_exists.mp hps
    have e1 : RF.feature_maps_desc st =
        Except.ok ((osh.zip ps).map fun sp => ⟨⟨sp.1.w, sp.1.h⟩, sp.2⟩) := by
      simp [RF.feature_maps_desc, RF.check, hb, hish, hosh, hps, except_bind_ok]
    have e2 : RF.input_shape st = Except.ok ⟨ish.w, ish.h, ish.c⟩ := by
      simp [RF.input_shape, RF.check, hb, hish, hosh, hps, except_bind_ok]
    have e3 : RF.output_shapes st = Except.ok (osh.map fun s => ⟨s.w, s.h⟩) := by
      simp [RF.output_shapes, RF.check, hb, hish, hosh, hps, except_bind_ok]
    have e4 : RF.num_feature_maps st = Except.ok osh.length := by
      simp [RF.num_feature_maps, RF.check, hb, hish, hosh, hps, except_bind_ok]
    exact ⟨⟨_, e1⟩, ⟨_, e2⟩, ⟨_, e3⟩, ⟨_, e4⟩⟩
  · simp [RF.compute, RF.build_gradient_func]

/-- Witness for C5: before computing, `feature_maps_desc` raises the guard's
exception; after a concrete `compute` run the instance is built and
`feature_maps_desc` returns normally. -/
theorem C5_accessors_guarded_witness :
    RF.feature_maps_desc RF.initState = Except.error RF.RFError.notComputed ∧
    (RF.compute RF.initState ⟨6, 6, 3⟩ [⟨4, 4, 1⟩] (fun _ _ => [(0 : Nat)])
        (fun _ => [⟨0, 0, 2, 2⟩])).1.built = true ∧
    ExceptOk (RF.feature_maps_desc
      (RF.compute RF.initState ⟨6, 6, 3⟩ [⟨4, 4, 1⟩] (fun _ _ => [(0 : Nat)])
        (fun _ => [⟨0, 0, 2, 2⟩])).1) := by
  have h0 := C5_accessors_guarded RF.initState RF.Reachable.init
  have hbuilt := h0.2.2 Nat ⟨6, 6, 3⟩ [⟨4, 4, 1⟩] (fun _ _ => [(0 : Nat)])
    (fun _ => [⟨0, 0, 2, 2⟩])
  have h2 := C5_accessors_guarded _
    (RF.Reachable.compute RF.initState ⟨6, 6, 3⟩ [⟨4, 4, 1⟩] (fun _ _ => [(0 : Nat)])
      (fun _ => [⟨0, 0, 2, 2⟩]) RF.Reachable.init)
  exact ⟨(h0.1 rfl).1, hbuilt, (h2.2.1 hbuilt).1⟩

/-- Claim C1: for every feature map, the description `compute` stores is the
closed-form arithmetic combination of the three probe estimates:
`offset = (rf_at_point00.w - rf_at00.w / 2, rf_at_point00.h - rf_at00.h / 2)`,
`stride = (rf_at11.x - rf_at00.x, rf_at11.y - rf_at00.y)` and
`size = (rf_at00.w, rf_at00.h)`, where the three rectangles are estimated
from the gradients at the grid center, at the center offset by `(1, 1)`,
and at grid point `(0, 0)`. -/
theorem C1_closed_form_arithmetic {G : Type} (st : RF.RFState) (ish : RF.GridShape)
    (oshapes : List RF.GridShape) (grad_fn : List RF.GridPoint → ℚ → List G)
    (estimate : List G → List RF.Rect) (i : Nat)
    (hP : i < (estimate (grad_fn (RF.startPoints oshapes) 1)).length)
    (h0 : i < (estimate (grad_fn (RF.centerPoints00 oshapes) 1)).length)
    (h1 : i < (estimate (grad_fn (RF.centerPoints11 oshapes) 1)).length) :
    (RF.compute st ish oshapes grad_fn estimate).1.rf_params = some
      (RF.rfParamsFromRects
        (estimate (grad_fn (RF.startPoints oshapes) 1))
        (estimate (grad_fn (RF.centerPoints00 oshapes) 1))
        (estimate (grad_fn (RF.centerPoints11 oshapes) 1))) ∧
    (RF.rfParamsFromRects
        (estimate (grad_fn (RF.startPoints oshapes) 1))
        (estimate (grad_fn (RF.centerPoints00 oshapes) 1))
        (estimate (grad_fn (RF.centerPoints11 oshapes) 1)))[i]? = some
      { offset :=
          ((estimate (grad_fn (RF.startPoints oshapes) 1))[i].w
             - (estimate (grad_fn (RF.centerPoints00 oshapes) 1))[i].w / 2,
           (estimate (grad_fn (RF.startPoints oshapes) 1))[i].h
             - (estimate (grad_fn (RF.centerPoints00 oshapes) 1))[i].h / 2)
        stride :=
          ((estimate (grad_fn (RF.centerPoints11 oshapes) 1))[i].x
             - (estimate (grad_fn (RF.centerPoints00 oshapes) 1))[i].x,
           (estimate (grad_fn (RF.centerPoints11 oshapes) 1))[i].y
             - (estimate (grad_fn (RF.centerPoints00 oshapes) 1))[i].y)
        size := ⟨(estimate (grad_fn (RF.centerPoints00 oshapes) 1))[i].w,
                 (estimate (grad_fn (RF.centerPoints00 oshapes) 1))[i].h⟩ } :=
  ⟨rfl, rfParamsFromRects_getElem _ _ _ i hP h0 h1⟩

/-- Witness for C1 on a single 4x4 feature map with a gradient/estimation
oracle mapping probe point `p` to the rectangle
`(x, y, w, h) = (p.x, p.y, p.x + 2, p.y + 3)`: the probes land at
`(0,0)`, `(1,1)`, `(2,2)`, giving offset `(1/2, 1)`, stride `(1, 1)` and
size `(3, 4)`. -/
theorem C1_closed_form_arithmetic_witness :
    (RF.compute RF.initState ⟨8, 8, 3⟩ [⟨4, 4, 1⟩] (fun pts _ => pts)
        (fun pts => pts.map fun p =>
          (⟨(p.x : ℚ), (p.y : ℚ), (p.x : ℚ) + 2, (p.y : ℚ) + 3⟩ : RF.Rect))).1.rf_params =
      some [{ offset := (1 / 2, 1), stride := (1, 1), size := ⟨3, 4⟩ }] := by
  have h := C1_closed_form_arithmetic RF.initState ⟨8, 8, 3⟩ [⟨4, 4, 1⟩]
    (fun pts _ => pts)
    (fun pts => pts.map fun p =>
      (⟨(p.x : ℚ), (p.y : ℚ), (p.x : ℚ) + 2, (p.y : ℚ) + 3⟩ : RF.Rect))
    0 (by decide) (by decide) (by decide)
  refine h.1.trans ?_
  norm_num [RF.rfParamsFromRects, RF.startPoints, RF.centerPoints00,
    RF.centerPoints11, RF.gradActivationCenterPoints, RF.centerPoint]

/-- Claim C2: `compute` requests gradient maps exactly three times, in order:
the aligned feature-map centers, the centers offset by `(1, 1)`, and the
grid start `(0, 0)` for every feature map - each probe backpropagated as a
unit impulse (intensity `1`, the default of both gradient entry points),
and from no other locations. -/
theorem C2_three_probe_calls {G : Type} (st : RF.RFState) (ish : RF.GridShape)
    (oshapes : List RF.GridShape) (grad_fn : List RF.GridPoint → ℚ → List G)
    (estimate : List G → List RF.Rect) :
    (RF.compute st ish oshapes grad_fn estimate).2.1 =
      [⟨RF.centerPoints00 oshapes, 1⟩, ⟨RF.centerPoints11 oshapes, 1⟩,
       ⟨RF.startPoints oshapes, 1⟩] ∧
    (RF.compute st ish oshapes grad_fn estimate).2.1.length = 3 :=
  ⟨rfl, rfl⟩

/-- Claim C4: when the estimation returns one rectangle per feature map for
each of the three probes, `compute` returns one `FeatureMapDescription` per
feature map: the returned list pairs, entry by entry, the output shape's
width and height with the estimated description, and its length is the
number of output shapes. -/
theorem C4_desc_per_feature_map {G : Type} (st : RF.RFState) (ish : RF.GridShape)
    (oshapes : List RF.GridShape) (grad_fn : List RF.GridPoint → ℚ → List G)
    (estimate : List G → List RF.Rect)
    (hP : (estimate (grad_fn (RF.startPoints oshapes) 1)).length = oshapes.length)
    (h0 : (estimate (grad_fn (RF.centerPoints00 oshapes) 1)).length = oshapes.length)
    (h1 : (estimate (grad_fn (RF.centerPoints11 oshapes) 1)).length = oshapes.length) :
    (RF.compute st ish oshapes grad_fn estimate).2.2 = Except.ok
      ((oshapes.zip (RF.rfParamsFromRects
          (estimate (grad_fn (RF.startPoints oshapes) 1))
          (estimate (grad_fn (RF.centerPoints00 oshapes) 1))
          (estimate (grad_fn (RF.centerPoints11 oshapes) 1)))).map
        fun sp => ⟨⟨sp.1.w, sp.1.h⟩, sp.2⟩) ∧
    ((oshapes.zip (RF.rfParamsFromRects
          (estimate (grad_fn (RF.startPoints oshapes) 1))
          (estimate (grad_fn (RF.centerPoints00 oshapes) 1))
          (estimate (grad_fn (RF.centerPoints11 oshapes) 1)))).map
        (fun sp => (⟨⟨sp.1.w, sp.1.h⟩, sp.2⟩ : RF.FeatureMapDescription))).length =
      oshapes.length ∧
    ∀ i, i < oshapes.length →
      ∃ s p, oshapes[i]? = some s ∧
        (RF.rfParamsFromRects
          (estimate (grad_fn (RF.startPoints oshapes) 1))
          (estimate (grad_fn (RF.centerPoints00 oshapes) 1))
          (estimate (grad_fn (RF.centerPoints11 oshapes) 1)))[i]? = some p ∧
        ((oshapes.zip (RF.rfParamsFromRects
            (estimate (grad_fn (RF.startPoints oshapes) 1))
            (estimate (grad_fn (RF.centerPoints00 oshapes) 1))
            (estimate (grad_fn (RF.centerPoints11 oshapes) 1)))).map
          (fun sp => (⟨⟨sp.1.w, sp.1.h⟩, sp.2⟩ : RF.FeatureMapDescription)))[i]? =
          some ⟨⟨s.w, s.h⟩, p⟩ := by
  have hlp : (RF.rfParamsFromRects
      (estimate (grad_fn (RF.startPoints oshapes) 1))
      (estimate (grad_fn (RF.centerPoints00 oshapes) 1))
      (estimate (grad_fn (RF.centerPoints11 oshapes) 1))).length = oshapes.length := by
    simp [RF.rfParamsFromRects, hP, h0, h1]
  refine ⟨rfl, by simp [hlp], ?_⟩
  intro i hi
  have hip : i < (RF.rfParamsFromRects
      (estimate (grad_fn (RF.startPoints oshapes) 1))
      (estimate (grad_fn (RF.centerPoints00 oshapes) 1))
      (estimate (grad_fn (RF.centerPoints11 oshapes) 1))).length := by omega
  have hzip : ((oshapes.zip (RF.rfParamsFromRects
      (estimate (grad_fn (RF.startPoints oshapes) 1))
      (estimate (grad_fn (RF.centerPoints00 oshapes) 1))
      (estimate (grad_fn (RF.centerPoints11 oshapes) 1))))[i]?) = some
        (oshapes[i], (RF.rfParamsFromRects
          (estimate (grad_fn (RF.startPoints oshapes) 1))
          (estimate (grad_fn (RF.centerPoints00 oshapes) 1))
          (estimate (grad_fn (RF.centerPoints11 oshapes) 1)))[i]) :=
    List.getElem?_zip_eq_some.mpr
      ⟨List.getElem?_eq_getElem hi, List.getElem?_eq_getElem hip⟩
  refine ⟨oshapes[i], _, List.getElem?_eq_getElem hi, List.getElem?_eq_getElem hip, ?_⟩
  rw [List.getElem?_map, hzip]
  rfl

/-- Witness for C4 on a single 4x4 feature map with the same oracle as the
C1 witness: exactly one description is returned, paired with size (4, 4). -/
theorem C4_desc_per_feature_map_witness :
    (RF.compute RF.initState ⟨8, 8, 3⟩ [⟨4, 4, 1⟩] (fun pts _ => pts)
        (fun pts => pts.map fun p =>
          (⟨(p.x : ℚ), (p.y : ℚ), (p.x : ℚ) + 2, (p.y : ℚ) + 3⟩ : RF.Rect))).2.2 =
      Except.ok [⟨⟨4, 4⟩, { offset := (1 / 2, 1), stride := (1, 1), size := ⟨3, 4⟩ }⟩] := by
  have h := C4_desc_per_feature_map RF.initState ⟨8, 8, 3⟩ [⟨4, 4, 1⟩]
    (fun pts _ => pts)
    (fun pts => pts.map fun p =>
      (⟨(p.x : ℚ), (p.y : ℚ), (p.x : ℚ) + 2, (p.y : ℚ) + 3⟩ : RF.Rect))
    (by decide) (by decide) (by decide)
  refine h.1.trans ?_
  norm_num [RF.rfParamsFromRects, RF.startPoints, RF.centerPoints00,
    RF.centerPoints11, RF.gradActivationCenterPoints, RF.centerPoint]

/-- The consistency loop finishes silently exactly when every non-ignored
checkpoint key has the matching value in `args2`. -/
lemma checkArgsLoop_none_iff (args2 : Inference.Dict) (cp : Inference.Dict) :
    Inference.checkArgsLoop args2 cp = none ↔
      ∀ kv ∈ cp, kv.1 ∉ Inference.ignored_keys →
        Inference.lookupD args2 kv.1 = some kv.2 := by
  induction cp with
  | nil => simp [Inference.checkArgsLoop]
  | cons kv rest ih =>
    obtain ⟨k, v⟩ := kv
    by_cases hk : k ∈ Inference.ignored_keys
    · have hstep : Inference.checkArgsLoop args2 ((k, v) :: rest) =
          Inference.checkArgsLoop args2 rest := by
        simp [Inference.checkArgsLoop, hk]
      rw [hstep, ih]
      constructor
      · intro h kv2 hmem hnig
        rcases List.mem_cons.mp hmem with heq | htail
        · subst heq; exact absurd hk hnig
        · exact h kv2 htail hnig
      · intro h kv2 hmem hnig
        exact h kv2 (List.mem_cons_of_mem _ hmem) hnig
    · cases hl : Inference.lookupD args2 k with
      | none =>
        have hstep : Inference.checkArgsLoop args2 ((k, v) :: rest) =
            some (Inference.LoadOutcome.keyError k) := by
          simp [Inference.checkArgsLoop, hk, hl]
        rw [hstep]
        constructor
        · intro h; cases h
        · intro h
          have := h (k, v) (List.mem_cons_self _ _) hk
          rw [hl] at this
          cases this
      | some v2 =>
        by_cases hv : v2 = v
        · subst hv
          have hstep : Inference.checkArgsLoop args2 ((k, v2) :: rest) =
              Inference.checkArgsLoop args2 rest := by
            simp [Inference.checkArgsLoop, hk, hl]
          rw [hstep, ih]
          constructor
          · intro h kv2 hmem hnig
            rcases List.mem_cons.mp hmem with heq | htail
            · subst heq; exact hl
            · exact h kv2 htail hnig
          · intro h kv2 hmem hnig
            exact h kv2 (List.mem_cons_of_mem _ hmem) hnig
        · have hstep : Inference.checkArgsLoop args2 ((k, v) :: rest) =
              some (Inference.LoadOutcome.exit0 k) := by
            simp [Inference.checkArgsLoop, hk, hl, hv]
          rw [hstep]
          constructor
          · intro h; cases h
          · intro h
            have := h (k, v) (List.mem_cons_self _ _) hk
            rw [hl] at this
            exact absurd (Option.some.inj this) hv
  
/-- When every non-ignored checkpoint key is present in `args2`, the
consistency loop either finishes silently or stops at `exit(0)` for some
key (never with a `KeyError`). -/
lemma checkArgsLoop_outcomes (args2 : Inference.Dict) (cp : Inference.Dict)
    (H : ∀ kv ∈ cp, kv.1 ∉ Inference.ignored_keys →
      (Inference.lookupD args2 kv.1).isSome) :
    Inference.checkArgsLoop args2 cp = none ∨
      ∃ k, Inference.checkArgsLoop args2 cp = some (Inference.LoadOutcome.exit0 k) := by
  induction cp with
  | nil => exact Or.inl rfl
  | cons kv rest ih =>
    obtain ⟨k, v⟩ := kv
    have Hrest : ∀ kv ∈ rest, kv.1 ∉ Inference.ignored_keys →
        (Inference.lookupD args2 kv.1).isSome :=
      fun kv2 hm hn => H kv2 (List.mem_cons_of_mem _ hm) hn
    by_cases hk : k ∈ Inference.ignored_keys
    · simpa [Inference.checkArgsLoop, hk] using ih Hrest
    · cases hl : Inference.lookupD args2 k with
      | none => exact absurd (H (k, v) (List.mem_cons_self _ _) hk) (by simp [hl])
      | some v2 =>
        by_cases hv : v2 = v
        · simpa [Inference.checkArgsLoop, hk, hl, hv] using ih Hrest
        · exact Or.inr ⟨k, by simp [Inference.checkArgsLoop, hk, hl, hv]⟩

/-- Claim C6: loading a checkpoint with net type `segtran` and stored args
present, `load_model_state` hits the hard `exit(0)` when some non-ignored
key of the (device-patched) checkpoint args disagrees with the supplied
args completed by the old default keys; when every such key agrees it
returns the network with its parameter dict updated by the checkpoint
weights. -/
theorem C6_load_model_state_guard (netParams args storedModel storedArgs rawDict :
      Inference.Dict) (dev : Inference.Val)
    (hdev : Inference.lookupD args "device" = some dev)
    (hnet : Inference.lookupD args "net" = some (Inference.Val.str "segtran"))
    (H : ∀ kv ∈ Inference.setKey storedArgs "device" dev,
      kv.1 ∉ Inference.ignored_keys →
      (Inference.lookupD (Inference.fillOldDefaults args) kv.1).isSome) :
    ((∃ kv ∈ Inference.setKey storedArgs "device" dev,
        kv.1 ∉ Inference.ignored_keys ∧
        Inference.lookupD (Inference.fillOldDefaults args) kv.1 ≠ some kv.2) →
      ∃ k, Inference.load_model_state netParams args true storedModel storedArgs rawDict =
        Inference.LoadOutcome.exit0 k) ∧
    ((∀ kv ∈ Inference.setKey storedArgs "device" dev,
        kv.1 ∉ Inference.ignored_keys →
        Inference.lookupD (Inference.fillOldDefaults args) kv.1 = some kv.2) →
      Inference.load_model_state netParams args true storedModel storedArgs rawDict =
        Inference.LoadOutcome.ok (Inference.dictUpdate netParams storedModel)) := by
  have hred : Inference.load_model_state netParams args true storedModel storedArgs rawDict =
      (match Inference.checkArgsLoop (Inference.fillOldDefaults args)
          (Inference.setKey storedArgs "device" dev) with
       | some bad => bad
       | none => Inference.LoadOutcome.ok (Inference.dictUpdate netParams storedModel)) := by
    unfold Inference.load_model_state
    rw [hdev, hnet]
    simp
  constructor
  · rintro ⟨kv, hmem, hnig, hneq⟩
    rcases checkArgsLoop_outcomes (Inference.fillOldDefaults args)
        (Inference.setKey storedArgs "device" dev) H with hnone | ⟨k2, hk2⟩
    · exact absurd ((checkArgsLoop_none_iff _ _).mp hnone kv hmem hnig) hneq
    · exact ⟨k2, by rw [hred, hk2]⟩
  · intro hall
    have hnone := (checkArgsLoop_none_iff _ _).mpr hall
    rw [hred, hnone]

/-- Witness for C6 on a concrete consistent checkpoint: args and stored args
agree on every non-ignored key, so the network parameters are updated with
the checkpoint weight for `w1` and returned. -/
theorem C6_load_model_state_guard_witness :
    Inference.load_model_state
        [("w1", Inference.Val.int 0), ("w2", Inference.Val.int 7)]
        [("device", Inference.Val.str "cpu"), ("net", Inference.Val.str "segtran"),
         ("mid_type", Inference.Val.str "shared")]
        true
        [("w1", Inference.Val.int 5)]
        [("mid_type", Inference.Val.str "shared")]
        [] =
      Inference.LoadOutcome.ok
        [("w1", Inference.Val.int 5), ("w2", Inference.Val.int 7)] := by
  have h := (C6_load_model_state_guard
    [("w1", Inference.Val.int 0), ("w2", Inference.Val.int 7)]
    [("device", Inference.Val.str "cpu"), ("net", Inference.Val.str "segtran"),
     ("mid_type", Inference.Val.str "shared")]
    [("w1", Inference.Val.int 5)]
    [("mid_type", Inference.Val.str "shared")]
    []
    (Inference.Val.str "cpu")
    (by decide) (by decide) (by decide)).2 (by decide)
  exact h.trans (by decide)
